import Mathlib

/-!
Verification of the kernel session-management layer of the vscode-jupyter
extension, as a shallow embedding in Lean 4.

Each TypeScript class that the claims touch is embedded as a Lean state
type plus executable functions mirroring the source methods:

* `ServerCache` (src/kernels/jupyter/launcher/liveshare/serverCache.node.ts):
  a map from a normalized option key to an in-flight server promise.
  Asynchrony is modelled by splitting `getOrCreate` into its synchronous
  prefix (cache lookup / insert, which runs without interleaving in the
  single-threaded event loop) and a separate `settle` step for the
  `.then`/`.catch` continuation that runs when the promise completes.
* `KernelProvider.getOrCreate` (kernelProvider.web.ts): the per-document
  kernel table.  The base-class helpers (`getInternal`, `disposeOldKernel`)
  are not part of the sources, so they are modelled from the spec.
* `JupyterSessionManager` (src/kernels/jupyter/session/jupyterSessionManager.node.ts):
  `startNew`, `getKernelSpecs`, `getRunningKernels`,
  `secureConnectionCheck`, `insecureServerWarningPrompt`, and the
  token test of `getServerConnectSettings`.
* `RemoteKernelFinder.listKernels`: remote kernel discovery; the
  outcomes of the awaited collaborator calls are passed in as explicit
  `Except` values.
-/

namespace VSCodeJupyter

/-! ## ServerCache (serverCache.node.ts) -/

/-- `INotebookServerOptions`, restricted to the fields that
`generateDefaultOptions` / `generateKey` read (`resource` and `ui` are
passed through unchanged and never enter the key). -/
structure NotebookServerOptions where
  uri : Option String
  skipUsingDefaultConfig : Bool
  workingDir : Option String
  localJupyter : Bool
  deriving Repr, DecidableEq

/-- `ServerCache.generateDefaultOptions`: fills in a missing working
directory with the calculated one (`calculateWorkingDirectory` is a
collaborator; its result is the `calculatedWorkingDir` argument) and
defaults `skipUsingDefaultConfig` to `false` (already a `Bool` here). -/
def generateDefaultOptions (calculatedWorkingDir : String)
    (options : NotebookServerOptions) : NotebookServerOptions :=
  { uri := options.uri
    skipUsingDefaultConfig := options.skipUsingDefaultConfig
    workingDir := match options.workingDir with
      | some w => some w
      | none => some calculatedWorkingDir
    localJupyter := options.localJupyter }

/-- `ServerCache.generateKey`: combines uri, the default-config flag, the
local flag and the working directory into a single string key.  In the
template literal an `undefined` working directory prints as
`"undefined"`. -/
def generateKey (options : NotebookServerOptions) : String :=
  let uri := match options.uri with | some u => u | none => ""
  let useFlag := if options.skipUsingDefaultConfig then "true" else "false"
  let localStr := if options.localJupyter then "true" else "false"
  let wd := match options.workingDir with | some w => w | none => "undefined"
  "uri=" ++ uri ++ ";useFlag=" ++ useFlag ++ ";local=" ++ localStr ++
    ";workingDir=" ++ wd

/-- One `IServerData` cache record: `{options, promise, resolved}`.  The
promise is identified by a numeric token (`promiseId`); the promise's own
status lives in the driver of the state machine, not in the entry. -/
structure ServerData where
  key : String
  options : NotebookServerOptions
  promiseId : Nat
  resolved : Bool
  deriving Repr, DecidableEq

/-- The mutable state of one `ServerCache` instance, together with the
instrumentation the claims are about: `createCalls` counts invocations of
the `createFunction` argument, and `nextPromiseId` supplies fresh promise
identities. -/
structure ServerCacheState where
  cache : List ServerData
  nextPromiseId : Nat
  createCalls : Nat
  deriving Repr, DecidableEq

/-- `this.cache.get(key)` on the association list. -/
def cacheGet (cache : List ServerData) (key : String) : Option ServerData :=
  cache.find? (fun d => d.key == key)

/-- The synchronous body of `ServerCache.getOrCreate` up to and including
`this.cache.set(key, data)`: normalize the options, build the key, reuse
an existing entry if present, otherwise invoke `createFunction` (counted)
and cache the pending promise.  Returns the promise the caller will
await.  In the single-threaded event loop nothing interleaves inside this
prefix. -/
def getOrCreate (st : ServerCacheState) (calculatedWorkingDir : String)
    (options : NotebookServerOptions) : ServerCacheState × Nat :=
  let fixedOptions := generateDefaultOptions calculatedWorkingDir options
  let key := generateKey fixedOptions
  match cacheGet st.cache key with
  | some d => (st, d.promiseId)
  | none =>
      let pid := st.nextPromiseId
      ({ cache := st.cache ++
            [{ key := key, options := fixedOptions, promiseId := pid, resolved := false }]
         nextPromiseId := pid + 1
         createCalls := st.createCalls + 1 }, pid)

/-- How a creation promise completes: with a server, with `undefined`, or
by rejecting. -/
inductive ServerOutcome where
  | server (serverId : Nat)
  | noServer
  | rejected (e : String)
  deriving Repr, DecidableEq

/-- The `.then`/`.catch` continuation attached by `getOrCreate`, run when
the promise for `key` completes:
* resolved to `undefined` → delete the entry, return `none`;
* resolved to a server → mark the entry resolved, return the server
  (the dispose-wrapping of the server is not observable here);
* rejected → delete the entry, then re-throw.
The error component is `some e` exactly when the error is re-propagated,
and the returned state is the cache state at the moment of
re-propagation (the deletion happens first, as in the source). -/
def settle (st : ServerCacheState) (key : String) (outcome : ServerOutcome) :
    ServerCacheState × Except String (Option Nat) :=
  match outcome with
  | .noServer =>
      ({ st with cache := st.cache.filter (fun d => !(d.key == key)) }, .ok none)
  | .server sid =>
      ({ st with cache := st.cache.map (fun d =>
            if d.key == key then { d with resolved := true } else d) },
        .ok (some sid))
  | .rejected e =>
      ({ st with cache := st.cache.filter (fun d => !(d.key == key)) }, .error e)

/-! ## Lemmas about the ServerCache -/

theorem cacheGet_append_self (cache : List ServerData) (d : ServerData)
    (h : cacheGet cache d.key = none) :
    cacheGet (cache ++ [d]) d.key = some d := by
  unfold cacheGet at *
  induction cache with
  | nil => simp [List.find?]
  | cons x xs ih =>
      simp only [List.cons_append, List.find?] at *
      cases hx : (x.key == d.key) with
      | true => simp [hx] at h
      | false =>
        simp only [hx] at h ⊢
        exact ih h

theorem cacheGet_filter_ne (cache : List ServerData) (key : String) :
    cacheGet (cache.filter (fun d => !(d.key == key))) key = none := by
  unfold cacheGet
  induction cache with
  | nil => simp
  | cons x xs ih =>
      by_cases hx : x.key = key
      · have hb : (!(x.key == key)) = false := by simp [hx]
        simp only [List.filter_cons, hb, Bool.false_eq_true, if_false]
        exact ih
      · have hb : (x.key == key) = false := by
          simp [hx]
        simp only [List.filter, hb, Bool.not_false, List.find?, hb]
        exact ih

end VSCodeJupyter

namespace VSCodeJupyter

/-- Convenient sample options used by witnesses. -/
def sampleOptions : NotebookServerOptions :=
  { uri := some "http://host:8888"
    skipUsingDefaultConfig := false
    workingDir := none
    localJupyter := false }

/-- The empty server cache. -/
def emptyServerCache : ServerCacheState :=
  { cache := [], nextPromiseId := 0, createCalls := 0 }

end VSCodeJupyter

namespace VSCodeJupyter

/-- C1: two `getOrCreate` calls whose options normalize to the same key,
the second issued while the first's creation promise is still pending
(no `settle` step in between): the second call returns the very same
promise, leaves the state untouched, and the creation function has been
invoked exactly once in total — by the first call. -/
theorem serverCache_getOrCreate_shares_pending_promise
    (st : ServerCacheState) (wd : String) (o1 o2 : NotebookServerOptions)
    (hkey : generateKey (generateDefaultOptions wd o1) =
            generateKey (generateDefaultOptions wd o2))
    (habsent : cacheGet st.cache (generateKey (generateDefaultOptions wd o1)) = none) :
    (getOrCreate (getOrCreate st wd o1).1 wd o2).2 = (getOrCreate st wd o1).2 ∧
    (getOrCreate (getOrCreate st wd o1).1 wd o2).1 = (getOrCreate st wd o1).1 ∧
    (getOrCreate st wd o1).1.createCalls = st.createCalls + 1 := by
  have h1 : getOrCreate st wd o1 =
      ({ cache := st.cache ++
            [{ key := generateKey (generateDefaultOptions wd o1)
               options := generateDefaultOptions wd o1
               promiseId := st.nextPromiseId
               resolved := false }]
         nextPromiseId := st.nextPromiseId + 1
         createCalls := st.createCalls + 1 }, st.nextPromiseId) := by
    simp only [getOrCreate]
    rw [habsent]
  have hcache :
      cacheGet (getOrCreate st wd o1).1.cache
          (generateKey (generateDefaultOptions wd o2)) =
        some { key := generateKey (generateDefaultOptions wd o1)
               options := generateDefaultOptions wd o1
               promiseId := st.nextPromiseId
               resolved := false } := by
    rw [h1, ← hkey]
    exact cacheGet_append_self st.cache _ habsent
  generalize hg : getOrCreate st wd o1 = r1 at hcache ⊢
  rw [hg] at h1
  have h2 : getOrCreate r1.1 wd o2 = (r1.1, st.nextPromiseId) := by
    simp only [getOrCreate]
    rw [hcache]
  refine ⟨?_, ?_, ?_⟩
  · rw [h2, h1]
  · rw [h2]
  · rw [h1]

/-- Witness for C1 at a concrete state: empty cache, two identical option
records. -/
theorem serverCache_getOrCreate_shares_pending_promise_witness :
    (getOrCreate (getOrCreate emptyServerCache "/work" sampleOptions).1
        "/work" sampleOptions).2 =
      (getOrCreate emptyServerCache "/work" sampleOptions).2 ∧
    (getOrCreate (getOrCreate emptyServerCache "/work" sampleOptions).1
        "/work" sampleOptions).1 =
      (getOrCreate emptyServerCache "/work" sampleOptions).1 ∧
    (getOrCreate emptyServerCache "/work" sampleOptions).1.createCalls =
      emptyServerCache.createCalls + 1 :=
  serverCache_getOrCreate_shares_pending_promise emptyServerCache "/work"
    sampleOptions sampleOptions rfl rfl

/-- C7: when the creation promise for a key rejects (or resolves to no
server), the continuation removes the cache entry — on rejection the
removal happens before the error is re-propagated — so a subsequent
`getOrCreate` with the same key invokes the creation function again
(fresh promise, `createCalls` incremented) instead of receiving the
failed result. -/
theorem serverCache_failure_evicts_and_retries
    (st : ServerCacheState) (wd : String) (options : NotebookServerOptions)
    (outcome : ServerOutcome)
    (hfail : outcome = .noServer ∨ ∃ e, outcome = .rejected e) :
    cacheGet (settle st (generateKey (generateDefaultOptions wd options)) outcome).1.cache
        (generateKey (generateDefaultOptions wd options)) = none ∧
    (∀ e, outcome = ServerOutcome.rejected e →
      (settle st (generateKey (generateDefaultOptions wd options)) outcome).2 = .error e) ∧
    (getOrCreate (settle st (generateKey (generateDefaultOptions wd options)) outcome).1
        wd options).1.createCalls =
      (settle st (generateKey (generateDefaultOptions wd options)) outcome).1.createCalls + 1 ∧
    (getOrCreate (settle st (generateKey (generateDefaultOptions wd options)) outcome).1
        wd options).2 =
      (settle st (generateKey (generateDefaultOptions wd options)) outcome).1.nextPromiseId := by
  set key := generateKey (generateDefaultOptions wd options) with hkeydef
  have hdel : (settle st key outcome).1.cache =
      st.cache.filter (fun d => !(d.key == key)) := by
    rcases hfail with h | ⟨e, h⟩ <;> rw [h, settle]
  have habsent : cacheGet (settle st key outcome).1.cache key = none := by
    rw [hdel]; exact cacheGet_filter_ne st.cache key
  have h2 : getOrCreate (settle st key outcome).1 wd options =
      ({ cache := (settle st key outcome).1.cache ++
            [{ key := key
               options := generateDefaultOptions wd options
               promiseId := (settle st key outcome).1.nextPromiseId
               resolved := false }]
         nextPromiseId := (settle st key outcome).1.nextPromiseId + 1
         createCalls := (settle st key outcome).1.createCalls + 1 },
        (settle st key outcome).1.nextPromiseId) := by
    simp only [getOrCreate, ← hkeydef]
    rw [habsent]
  refine ⟨habsent, ?_, ?_, ?_⟩
  · intro e he
    rw [he, settle]
  · rw [h2]
  · rw [h2]

/-- Witness for C7: settle a rejected promise in a one-entry cache, then
retry. -/
theorem serverCache_failure_evicts_and_retries_witness :
    cacheGet (settle (getOrCreate emptyServerCache "/work" sampleOptions).1
        (generateKey (generateDefaultOptions "/work" sampleOptions))
        (ServerOutcome.rejected "ECONNREFUSED")).1.cache
        (generateKey (generateDefaultOptions "/work" sampleOptions)) = none ∧
    (∀ e, ServerOutcome.rejected "ECONNREFUSED" = ServerOutcome.rejected e →
      (settle (getOrCreate emptyServerCache "/work" sampleOptions).1
        (generateKey (generateDefaultOptions "/work" sampleOptions))
        (ServerOutcome.rejected "ECONNREFUSED")).2 = .error e) ∧
    (getOrCreate (settle (getOrCreate emptyServerCache "/work" sampleOptions).1
        (generateKey (generateDefaultOptions "/work" sampleOptions))
        (ServerOutcome.rejected "ECONNREFUSED")).1 "/work" sampleOptions).1.createCalls =
      (settle (getOrCreate emptyServerCache "/work" sampleOptions).1
        (generateKey (generateDefaultOptions "/work" sampleOptions))
        (ServerOutcome.rejected "ECONNREFUSED")).1.createCalls + 1 ∧
    (getOrCreate (settle (getOrCreate emptyServerCache "/work" sampleOptions).1
        (generateKey (generateDefaultOptions "/work" sampleOptions))
        (ServerOutcome.rejected "ECONNREFUSED")).1 "/work" sampleOptions).2 =
      (settle (getOrCreate emptyServerCache "/work" sampleOptions).1
        (generateKey (generateDefaultOptions "/work" sampleOptions))
        (ServerOutcome.rejected "ECONNREFUSED")).1.nextPromiseId :=
  serverCache_failure_evicts_and_retries
    (getOrCreate emptyServerCache "/work" sampleOptions).1 "/work" sampleOptions
    (ServerOutcome.rejected "ECONNREFUSED") (Or.inr ⟨"ECONNREFUSED", rfl⟩)

end VSCodeJupyter

namespace VSCodeJupyter

/-! ## Generic association-list lemmas -/

theorem find?_append_of_none {α : Type} (p : α → Bool) (l : List α) (x : α)
    (h : l.find? p = none) (hx : p x = true) : (l ++ [x]).find? p = some x := by
  induction l with
  | nil => simp [List.find?_cons, hx]
  | cons a as ih =>
      cases ha : p a with
      | true => simp [List.find?_cons, ha] at h
      | false =>
          simp only [List.find?_cons, ha] at h
          simpa [List.find?_cons, ha] using ih h

theorem find?_filter_not {α : Type} (p : α → Bool) (l : List α) :
    (l.filter (fun a => !(p a))).find? p = none := by
  induction l with
  | nil => rfl
  | cons a as ih =>
      cases ha : p a with
      | true =>
          simp only [List.filter_cons, ha, Bool.not_true, Bool.false_eq_true,
            if_false]
          exact ih
      | false =>
          simp only [List.filter_cons, ha, Bool.not_false, if_true,
            List.find?_cons, ha]
          exact ih

theorem filter_not_filter_self {α : Type} (p : α → Bool) (l : List α) :
    (l.filter (fun a => !(p a))).filter p = [] := by
  induction l with
  | nil => rfl
  | cons a as ih =>
      cases ha : p a <;> simp [List.filter_cons, ha, ih]

/-! ## KernelProvider (src/unnamed/part_003, extending kernelProvider.base) -/

/-- One record of the kernel identity table: the cached
`{options, kernel}` pair for a document identity.  `metadataId` is
`options.metadata.id`; `kernelId` is the identity of the constructed
`Kernel` object.  The `kernelsByNotebook` / `kernelsByUri` split of the
base class is collapsed into one table keyed by the uri string, which is
valid because the notebook lookup is a deterministic function of the
uri. -/
structure KernelEntry where
  uri : String
  metadataId : String
  kernelId : Nat
  deriving Repr, DecidableEq

/-- Observable kernel lifecycle events, in firing order. -/
inductive KernelEvent where
  | created (kernelId : Nat)
  | disposedEvt (kernelId : Nat)
  deriving Repr, DecidableEq

/-- State of one `KernelProvider`: the identity table, the set of kernels
whose `dispose` has run, a fresh-identity counter for `new Kernel(...)`,
and the event log. -/
structure KernelProviderState where
  table : List KernelEntry
  disposedKernels : List Nat
  nextKernelId : Nat
  events : List KernelEvent
  deriving Repr, DecidableEq

/-- Modelled from the spec: `BaseKernelProvider.getInternal` is not among
the sources (only its caller in part_003 is); per the spec the controller
"caches a kernel by identity", so `getInternal` returns the cached
`{options, kernel}` record for the document identity, if any. -/
def getInternal (st : KernelProviderState) (uri : String) : Option KernelEntry :=
  st.table.find? (fun e => e.uri == uri)

/-- Modelled from the spec: `BaseKernelProvider.disposeOldKernel` is not
among the sources; per the spec the controller must "dispose the old
kernel (if any) before constructing the new one", so this removes the
identity's entry from the table, records the kernel as disposed and fires
its disposed event. -/
def disposeOldKernel (st : KernelProviderState) (uri : String) : KernelProviderState :=
  match getInternal st uri with
  | none => st
  | some e =>
      { table := st.table.filter (fun d => !(d.uri == uri))
        disposedKernels := e.kernelId :: st.disposedKernels
        nextKernelId := st.nextKernelId
        events := st.events ++ [KernelEvent.disposedEvt e.kernelId] }

/-- The `new Kernel(...)` / table-insertion tail of
`KernelProvider.getOrCreate`: constructs a fresh kernel and records it
synchronously under the identity. -/
def createKernel (st : KernelProviderState) (uri metadataId : String) :
    KernelProviderState × Nat :=
  let kid := st.nextKernelId
  ({ table := st.table ++ [{ uri := uri, metadataId := metadataId, kernelId := kid }]
     disposedKernels := st.disposedKernels
     nextKernelId := kid + 1
     events := st.events ++ [KernelEvent.created kid] }, kid)

/-- `KernelProvider.getOrCreate(uri, options)` (src/unnamed/part_003):
if the cached kernel's connection-metadata id matches the requested one,
return it; otherwise dispose the old kernel and construct, record and
return a new one.  The whole body is synchronous (no await). -/
def kernelGetOrCreate (st : KernelProviderState) (uri metadataId : String) :
    KernelProviderState × Nat :=
  match getInternal st uri with
  | some e =>
      if e.metadataId == metadataId then (st, e.kernelId)
      else createKernel (disposeOldKernel st uri) uri metadataId
  | none => createKernel (disposeOldKernel st uri) uri metadataId

/-- Modelled from the spec: the controller's `get(D)` lookup ("`get(D)`
after the call returns K2"). -/
def getKernel (st : KernelProviderState) (uri : String) : Option Nat :=
  (getInternal st uri).map (fun e => e.kernelId)

/-! ### KernelProvider lemmas -/

theorem getInternal_disposeOldKernel (st : KernelProviderState) (uri : String) :
    getInternal (disposeOldKernel st uri) uri = none := by
  unfold disposeOldKernel
  cases hget : getInternal st uri with
  | none => exact hget
  | some e => exact find?_filter_not _ _

theorem getInternal_createKernel (st : KernelProviderState) (uri m : String)
    (h : getInternal st uri = none) :
    getInternal (createKernel st uri m).1 uri =
      some { uri := uri, metadataId := m, kernelId := st.nextKernelId } := by
  unfold getInternal createKernel at *
  exact find?_append_of_none _ _ _ h (by simp)

theorem getInternal_kernelGetOrCreate (st : KernelProviderState) (uri m : String) :
    getInternal (kernelGetOrCreate st uri m).1 uri =
      some { uri := uri, metadataId := m,
             kernelId := (kernelGetOrCreate st uri m).2 } := by
  cases hget : getInternal st uri with
  | none =>
      have h1 : kernelGetOrCreate st uri m =
          createKernel (disposeOldKernel st uri) uri m := by
        simp only [kernelGetOrCreate]; rw [hget]
      rw [h1]
      have := getInternal_createKernel (disposeOldKernel st uri) uri m
        (getInternal_disposeOldKernel st uri)
      simpa [createKernel] using this
  | some e =>
      cases hm : e.metadataId == m with
      | true =>
          have heu : e.uri = uri := by
            have := List.find?_some hget
            simpa using this
          have hem : e.metadataId = m := by simpa using hm
          have h1 : kernelGetOrCreate st uri m = (st, e.kernelId) := by
            simp only [kernelGetOrCreate]; rw [hget]; simp [hm]
          rw [h1]
          simpa [← heu, ← hem] using hget
      | false =>
          have h1 : kernelGetOrCreate st uri m =
              createKernel (disposeOldKernel st uri) uri m := by
            simp only [kernelGetOrCreate]; rw [hget]; simp [hm]
          rw [h1]
          have := getInternal_createKernel (disposeOldKernel st uri) uri m
            (getInternal_disposeOldKernel st uri)
          simpa [createKernel] using this

end VSCodeJupyter

namespace VSCodeJupyter

/-- C3: two back-to-back `KernelProvider.getOrCreate` calls with the same
document identity and the same connection-metadata id, with no
intervening dispose, return the identical Kernel instance, and the second
call creates nothing (state unchanged). -/
theorem kernelProvider_getOrCreate_idempotent
    (st : KernelProviderState) (uri m : String) :
    (kernelGetOrCreate (kernelGetOrCreate st uri m).1 uri m).2 =
      (kernelGetOrCreate st uri m).2 ∧
    (kernelGetOrCreate (kernelGetOrCreate st uri m).1 uri m).1 =
      (kernelGetOrCreate st uri m).1 := by
  have hget := getInternal_kernelGetOrCreate st uri m
  generalize hg : kernelGetOrCreate st uri m = r1 at hget ⊢
  have h2 : kernelGetOrCreate r1.1 uri m = (r1.1, r1.2) := by
    simp only [kernelGetOrCreate]
    rw [hget]
    simp
  rw [h2]
  exact ⟨rfl, rfl⟩

/-- C2: `KernelProvider.getOrCreate` on an identity whose cached kernel
has a different connection-metadata id disposes the old kernel before the
new one is constructed and recorded (the disposed event precedes the
created event in the log), the result is a different kernel, a subsequent
`get` returns the new kernel and never the old one, and the identity maps
to exactly one table entry afterwards. -/
theorem kernelProvider_switch_disposes_old
    (st : KernelProviderState) (uri m2 : String) (e : KernelEntry)
    (hget : getInternal st uri = some e)
    (hne : e.metadataId ≠ m2)
    (hfresh : e.kernelId < st.nextKernelId) :
    (kernelGetOrCreate st uri m2).2 ≠ e.kernelId ∧
    e.kernelId ∈ (kernelGetOrCreate st uri m2).1.disposedKernels ∧
    getKernel (kernelGetOrCreate st uri m2).1 uri =
      some (kernelGetOrCreate st uri m2).2 ∧
    (kernelGetOrCreate st uri m2).1.events =
      st.events ++ [KernelEvent.disposedEvt e.kernelId,
                    KernelEvent.created (kernelGetOrCreate st uri m2).2] ∧
    ((kernelGetOrCreate st uri m2).1.table.filter
        (fun d => d.uri == uri)).length = 1 := by
  have hbm : (e.metadataId == m2) = false := by simp [hne]
  have hd : disposeOldKernel st uri =
      { table := st.table.filter (fun d => !(d.uri == uri))
        disposedKernels := e.kernelId :: st.disposedKernels
        nextKernelId := st.nextKernelId
        events := st.events ++ [KernelEvent.disposedEvt e.kernelId] } := by
    simp only [disposeOldKernel]
    rw [hget]
  have hr : kernelGetOrCreate st uri m2 =
      ({ table := st.table.filter (fun d => !(d.uri == uri)) ++
            [{ uri := uri, metadataId := m2, kernelId := st.nextKernelId }]
         disposedKernels := e.kernelId :: st.disposedKernels
         nextKernelId := st.nextKernelId + 1
         events := (st.events ++ [KernelEvent.disposedEvt e.kernelId]) ++
            [KernelEvent.created st.nextKernelId] }, st.nextKernelId) := by
    simp only [kernelGetOrCreate]
    rw [hget]
    simp only [hbm, Bool.false_eq_true, if_false]
    rw [hd]
    rfl
  have hlook := getInternal_kernelGetOrCreate st uri m2
  refine ⟨?_, ?_, ?_, ?_, ?_⟩
  · rw [hr]
    exact fun h => absurd h.symm (Nat.ne_of_lt hfresh)
  · rw [hr]
    exact List.mem_cons_self _ _
  · simp [getKernel, hlook]
  · rw [hr]
    simp
  · rw [hr]
    simp only [List.filter_append, filter_not_filter_self]
    simp

/-- Sample provider state for the C2 witness: one live kernel (id 0,
metadata "id1") for notebook D. -/
def sampleProviderState : KernelProviderState :=
  { table := [{ uri := "file:///nb.ipynb", metadataId := "id1", kernelId := 0 }]
    disposedKernels := []
    nextKernelId := 1
    events := [KernelEvent.created 0] }

/-- Witness for C2: switch the kernel of notebook D from metadata "id1"
to "id2". -/
theorem kernelProvider_switch_disposes_old_witness :
    (kernelGetOrCreate sampleProviderState "file:///nb.ipynb" "id2").2 ≠ 0 ∧
    0 ∈ (kernelGetOrCreate sampleProviderState "file:///nb.ipynb" "id2").1.disposedKernels ∧
    getKernel (kernelGetOrCreate sampleProviderState "file:///nb.ipynb" "id2").1
        "file:///nb.ipynb" =
      some (kernelGetOrCreate sampleProviderState "file:///nb.ipynb" "id2").2 ∧
    (kernelGetOrCreate sampleProviderState "file:///nb.ipynb" "id2").1.events =
      sampleProviderState.events ++
        [KernelEvent.disposedEvt 0,
         KernelEvent.created (kernelGetOrCreate sampleProviderState "file:///nb.ipynb" "id2").2] ∧
    ((kernelGetOrCreate sampleProviderState "file:///nb.ipynb" "id2").1.table.filter
        (fun d => d.uri == "file:///nb.ipynb")).length = 1 :=
  kernelProvider_switch_disposes_old sampleProviderState "file:///nb.ipynb" "id2"
    { uri := "file:///nb.ipynb", metadataId := "id1", kernelId := 0 }
    (by decide) (by decide) (by decide)

end VSCodeJupyter

namespace VSCodeJupyter

/-! ## JupyterSessionManager (jupyterSessionManager.node.ts) -/

/-- The fields of `IJupyterConnection` read by `secureConnectionCheck`
and by the token test of `getServerConnectSettings`. -/
structure JupyterConnection where
  baseUrl : String
  token : String
  localLaunch : Bool
  hasAuthHeader : Bool
  deriving Repr, DecidableEq

/-- A user's answer to the insecure-server warning (the three labels of
`showWarningMessage`, or dismissing the dialog). -/
inductive PromptResponse where
  | yes
  | no
  | doNotShowAgain
  | dismissed
  deriving Repr, DecidableEq

/-- The security-decision state: the persisted
`DataScienceAllowInsecureConnections` global flag and the static
`JupyterSessionManager.secureServers` map from base URL to the (settled)
verdict of the prompt shown for that server. -/
structure SecurityState where
  userAllowsInsecureConnections : Bool
  secureServers : List (String × Bool)
  deriving Repr, DecidableEq

/-- `JupyterSessionManager.insecureServerWarningPrompt`: shows the
warning and maps the answer — Yes → proceed; "Do not show again" → set
the global flag and proceed; No or dismissal → block. -/
def insecureServerWarningPrompt (st : SecurityState) (response : PromptResponse) :
    Bool × SecurityState :=
  match response with
  | .yes => (true, st)
  | .doNotShowAgain => (true, { st with userAllowsInsecureConnections := true })
  | .no => (false, st)
  | .dismissed => (false, st)

/-- JavaScript `String.prototype.startsWith`, modelled on the character
sequences of the two strings. -/
def strStartsWith (s p : String) : Bool :=
  p.data.isPrefixOf s.data

/-- `JupyterSessionManager.secureConnectionCheck`.  Returns the state
after the check, `some error` iff the check throws, and the number of
prompts shown.  The promise cached in `secureServers` is modelled by the
settled verdict; `promptResponse` is the answer the user would give were
a prompt shown. -/
def secureConnectionCheck (st : SecurityState) (connInfo : JupyterConnection)
    (promptResponse : PromptResponse) : SecurityState × Option String × Nat :=
  if st.userAllowsInsecureConnections then (st, none, 0)
  else if connInfo.localLaunch || strStartsWith connInfo.baseUrl "https" ||
      connInfo.token != "null" then (st, none, 0)
  else
    match st.secureServers.lookup connInfo.baseUrl with
    | some secure =>
        if secure then (st, none, 0) else (st, some "insecureSessionDenied", 0)
    | none =>
        let r := insecureServerWarningPrompt st promptResponse
        let st2 := { r.2 with
          secureServers := r.2.secureServers ++ [(connInfo.baseUrl, r.1)] }
        if r.1 then (st2, none, 1) else (st2, some "insecureSessionDenied", 1)

/-- The token test of `getServerConnectSettings` deciding whether to
prompt for a password: fires when the token is empty or the literal
string `'null'` and no auth-header accessor was supplied. -/
def needsPasswordPrompt (connInfo : JupyterConnection) : Bool :=
  (connInfo.token == "" || connInfo.token == "null") && !connInfo.hasAuthHeader

/-! ### startNew -/

/-- The observable outcome of `JupyterSession.connect` inside `startNew`:
whether the call returned or threw, and whether it left
`session.isConnected` true. -/
structure ConnectBehavior where
  result : Except String Unit
  connectedAfter : Bool
  deriving Repr

/-- The observable part of the `JupyterSession` that `startNew` created. -/
structure SessionObservation where
  isConnected : Bool
  isDisposed : Bool
  deriving Repr, DecidableEq

/-- `JupyterSessionManager.startNew`: throws `SessionDisposedError` when
the manager is uninitialized/disposed; otherwise creates the session,
runs `connect`, and in a `finally` disposes the session whenever
`isConnected` is false; a `connect` error propagates after the
`finally`.  Returns the call's result together with the final state of
the session object that was created (`none` when no session was
created). -/
def startNew (managerInitialized : Bool) (connect : ConnectBehavior) :
    Except String SessionObservation × Option SessionObservation :=
  if !managerInitialized then (.error "SessionDisposedError", none)
  else
    let session : SessionObservation :=
      { isConnected := connect.connectedAfter
        isDisposed := !connect.connectedAfter }
    match connect.result with
    | .ok _ => (.ok session, some session)
    | .error e => (.error e, some session)

/-! ### getKernelSpecs -/

/-- A kernel spec as returned by `getKernelSpecs`: either a
`JupyterKernelSpec` built from a server-provided spec model (identified
here by its name), or the synthesized default interpreter-based spec
(`createInterpreterKernelSpec()`, a helper outside this layer). -/
inductive KernelSpecResult where
  | fromServer (name : String)
  | interpreterDefault
  deriving Repr, DecidableEq

/-- How the spec refresh bounded by the 10-second race behaves: the
manager's `specsManager.specs.kernelspecs` map (spec names) after the
refresh, or a thrown error. -/
inductive RefreshOutcome where
  | completes (specNamesAfter : List String)
  | throws (e : String)
  deriving Repr, DecidableEq

/-- `JupyterSessionManager.getKernelSpecs`: throws `SessionDisposedError`
when uninitialized; otherwise snapshots the previously known specs
(empty map when none), refreshes (bounded; modelled by `refresh`), keeps
the refreshed map when non-empty and falls back to the snapshot
otherwise; maps a non-empty result to `JupyterKernelSpec`s and
synthesizes the single default interpreter spec when the result is
empty.  Any exception inside the body is caught and yields `[]`. -/
def getKernelSpecs (managerInitialized : Bool) (specNamesBefore : List String)
    (refresh : RefreshOutcome) : Except String (List KernelSpecResult) :=
  if !managerInitialized then .error "SessionDisposedError"
  else
    match refresh with
    | .throws _ => .ok []
    | .completes specNamesAfter =>
        let oldKernelSpecs := if specNamesBefore.isEmpty then [] else specNamesBefore
        let kernelspecs := if specNamesAfter.isEmpty then oldKernelSpecs else specNamesAfter
        if kernelspecs.isEmpty then .ok [KernelSpecResult.interpreterDefault]
        else .ok (kernelspecs.map KernelSpecResult.fromServer)

/-! ### getRunningKernels -/

/-- A running-kernel model from `KernelAPI.listRunning` (the fields the
mapping reads; the timestamp and connection count are copied through
uninterpreted). -/
structure KernelModel where
  id : String
  name : String
  deriving Repr, DecidableEq

/-- An `IJupyterKernel` entry produced by `getRunningKernels`. -/
structure RunningKernel where
  id : String
  name : String
  deriving Repr, DecidableEq

/-- The dedup filter of `getRunningKernels`: drop an item whose id is in
the `dup` set, otherwise keep it and add its id. -/
def dedupFilter (dup : List String) : List RunningKernel → List RunningKernel
  | [] => []
  | k :: rest =>
      if dup.contains k.id then dedupFilter dup rest
      else k :: dedupFilter (k.id :: dup) rest

/-- `JupyterSessionManager.getRunningKernels`: map each model to an
`IJupyterKernel` record, then remove duplicate ids via the `dup` set
(first occurrence wins). -/
def getRunningKernels (models : List KernelModel) : List RunningKernel :=
  dedupFilter [] (models.map (fun m => { id := m.id, name := m.name }))

/-- The spec's description of the dedup ("deduplicate by kernel id,
keeping the first occurrence of each id"), stated independently of the
source: keep the head, drop every later element with the same id,
recurse. -/
def specKeepFirstById : List RunningKernel → List RunningKernel
  | [] => []
  | k :: rest =>
      k :: specKeepFirstById (rest.filter (fun k2 => k2.id != k.id))
  termination_by l => l.length
  decreasing_by
    simp only [List.length_cons]
    exact Nat.lt_succ_of_le (List.length_filter_le _ _)

end VSCodeJupyter

namespace VSCodeJupyter

/-- C4: on an initialized manager, when `connect` does not leave the
session with `isConnected` true, the `finally` block disposes the session
before `startNew` completes, and the call's result is `connect`'s own
result — in particular a `connect` error propagates verbatim — so a
caller can never receive a half-open (created but not connected, not
disposed) session. -/
theorem startNew_disposes_unconnected_session
    (connect : ConnectBehavior)
    (hnc : connect.connectedAfter = false) :
    (startNew true connect).2 =
      some { isConnected := false, isDisposed := true } ∧
    (startNew true connect).1 = connect.result.map
      (fun _ => ({ isConnected := false, isDisposed := true } : SessionObservation)) := by
  cases hc : connect.result with
  | ok u =>
      exact ⟨by simp [startNew, hnc, hc], by simp [startNew, hnc, hc, Except.map]⟩
  | error e =>
      exact ⟨by simp [startNew, hnc, hc], by simp [startNew, hnc, hc, Except.map]⟩

/-- Witness for C4: `connect` throws a launch timeout without
connecting. -/
theorem startNew_disposes_unconnected_session_witness :
    (startNew true { result := .error "JupyterWaitForIdleError", connectedAfter := false }).2 =
      some { isConnected := false, isDisposed := true } ∧
    (startNew true { result := .error "JupyterWaitForIdleError", connectedAfter := false }).1 =
      (Except.error "JupyterWaitForIdleError" : Except String Unit).map
        (fun _ => ({ isConnected := false, isDisposed := true } : SessionObservation)) :=
  startNew_disposes_unconnected_session
    { result := .error "JupyterWaitForIdleError", connectedAfter := false } rfl

/-- C6: `getKernelSpecs` on an initialized manager whose spec refresh
completes with zero specs, when no non-empty spec list was ever
previously retrieved, returns exactly the one synthesized default
interpreter-based spec — never an empty sequence. -/
theorem getKernelSpecs_empty_refresh_yields_default :
    getKernelSpecs true [] (RefreshOutcome.completes []) =
      Except.ok [KernelSpecResult.interpreterDefault] := by
  rfl

/-! ### Dedup lemmas for getRunningKernels -/

theorem dedupFilter_eq_specKeepFirst (dup : List String) (ks : List RunningKernel) :
    dedupFilter dup ks =
      specKeepFirstById (ks.filter (fun k => !(dup.contains k.id))) := by
  induction ks generalizing dup with
  | nil => simp [dedupFilter, specKeepFirstById]
  | cons k rest ih =>
      cases hk : dup.contains k.id with
      | true =>
          have hfk : (!(dup.contains k.id)) = false := by rw [hk]; rfl
          rw [dedupFilter, if_pos hk, List.filter_cons, hfk]
          simp only [Bool.false_eq_true, if_false]
          exact ih dup
      | false =>
          have hfk : (!(dup.contains k.id)) = true := by rw [hk]; rfl
          rw [dedupFilter, if_neg (by rw [hk]; exact Bool.false_ne_true),
            List.filter_cons, hfk]
          simp only [if_true]
          rw [specKeepFirstById, ih (k.id :: dup), List.filter_filter]
          congr 1
          have hpq : ∀ a : RunningKernel,
              (!((k.id :: dup).contains a.id)) =
                (a.id != k.id && !(dup.contains a.id)) := by
            intro a
            cases h1 : (a.id == k.id) <;> cases h2 : dup.contains a.id <;>
              simp only [List.contains_cons, h1, h2, bne, Bool.or_false,
                Bool.or_true, Bool.false_or, Bool.true_or, Bool.not_true,
                Bool.not_false, Bool.and_true, Bool.and_false, Bool.true_and,
                Bool.false_and]
          rw [List.filter_congr (fun a _ => hpq a)]

/-- C9: `getRunningKernels` returns the mapped models deduplicated by
kernel id keeping the first occurrence of each id (stated against an
independent keep-first specification), and on the concrete running list
`[{id:"a"},{id:"a"},{id:"b"}]` it returns exactly the two entries with
ids `a` and `b`, in that order. -/
theorem getRunningKernels_dedups_by_id (models : List KernelModel) :
    getRunningKernels models =
      specKeepFirstById (models.map (fun m => { id := m.id, name := m.name })) ∧
    getRunningKernels
        [{ id := "a", name := "k1" }, { id := "a", name := "k2" },
         { id := "b", name := "k3" }] =
      [{ id := "a", name := "k1" }, { id := "b", name := "k3" }] := by
  constructor
  · unfold getRunningKernels
    rw [dedupFilter_eq_specKeepFirst]
    congr 1
    apply List.filter_eq_self.2
    intro k _
    rfl
  · decide

end VSCodeJupyter

namespace VSCodeJupyter

/-! ### Security prompt lemmas -/

theorem lookup_append_self (l : List (String × Bool)) (k : String) (v : Bool)
    (h : l.lookup k = none) : (l ++ [(k, v)]).lookup k = some v := by
  induction l with
  | nil => simp [List.lookup]
  | cons p rest ih =>
      obtain ⟨a, b⟩ := p
      cases hp : (k == a) with
      | true =>
          rw [List.lookup_cons, hp] at h
          simp at h
      | false =>
          rw [List.lookup_cons, hp] at h
          rw [List.cons_append, List.lookup_cons, hp]
          exact ih h

/-- C5: on a first connection to a non-local, non-HTTPS server with
token `"null"`, with the global insecure opt-in off and no cached
decision for the base URL, exactly one prompt is shown; answering No
fails the check with the `insecureSessionDenied` error; answering Yes
succeeds and caches the decision so a second check for the same server
(any hypothetical answer) shows no further prompt and succeeds;
answering "Do not show again" sets the global opt-in; and with the
global opt-in already on (the user previously chose "do not show
again"), no prompt is ever shown. -/
theorem secureConnectionCheck_prompt_policy
    (st st2 : SecurityState) (connInfo : JupyterConnection)
    (resp2 : PromptResponse)
    (hlocal : connInfo.localLaunch = false)
    (hhttps : strStartsWith connInfo.baseUrl "https" = false)
    (htoken : connInfo.token = "null")
    (hglobal : st.userAllowsInsecureConnections = false)
    (hfresh : st.secureServers.lookup connInfo.baseUrl = none)
    (hst2 : st2.userAllowsInsecureConnections = true) :
    (secureConnectionCheck st connInfo PromptResponse.no).2.2 = 1 ∧
    (secureConnectionCheck st connInfo PromptResponse.no).2.1 =
      some "insecureSessionDenied" ∧
    (secureConnectionCheck st connInfo PromptResponse.yes).2.2 = 1 ∧
    (secureConnectionCheck st connInfo PromptResponse.yes).2.1 = none ∧
    (secureConnectionCheck
        (secureConnectionCheck st connInfo PromptResponse.yes).1
        connInfo resp2).2.2 = 0 ∧
    (secureConnectionCheck
        (secureConnectionCheck st connInfo PromptResponse.yes).1
        connInfo resp2).2.1 = none ∧
    (secureConnectionCheck st connInfo
        PromptResponse.doNotShowAgain).1.userAllowsInsecureConnections = true ∧
    (secureConnectionCheck st2 connInfo resp2).2.2 = 0 ∧
    (secureConnectionCheck st2 connInfo resp2).2.1 = none := by
  have hcond : (connInfo.localLaunch || strStartsWith connInfo.baseUrl "https" ||
      connInfo.token != "null") = false := by
    rw [hlocal, hhttps, htoken]
    rfl
  have hfirst : ∀ resp : PromptResponse,
      secureConnectionCheck st connInfo resp =
        (let r := insecureServerWarningPrompt st resp
         let stNew := { r.2 with
           secureServers := r.2.secureServers ++ [(connInfo.baseUrl, r.1)] }
         if r.1 then (stNew, none, 1) else (stNew, some "insecureSessionDenied", 1)) := by
    intro resp
    unfold secureConnectionCheck
    rw [if_neg (by rw [hglobal]; exact Bool.false_ne_true),
        if_neg (by rw [hcond]; exact Bool.false_ne_true), hfresh]
  have hyes : secureConnectionCheck st connInfo PromptResponse.yes =
      ({ st with secureServers := st.secureServers ++ [(connInfo.baseUrl, true)] },
        none, 1) := by
    rw [hfirst PromptResponse.yes]
    rfl
  have hcached : ∀ st3 : SecurityState,
      st3.userAllowsInsecureConnections = false →
      st3.secureServers.lookup connInfo.baseUrl = some true →
      secureConnectionCheck st3 connInfo resp2 = (st3, none, 0) := by
    intro st3 h1 h2
    unfold secureConnectionCheck
    rw [if_neg (by rw [h1]; exact Bool.false_ne_true),
        if_neg (by rw [hcond]; exact Bool.false_ne_true), h2]
    rfl
  have hsecond : secureConnectionCheck
      (secureConnectionCheck st connInfo PromptResponse.yes).1 connInfo resp2 =
      ((secureConnectionCheck st connInfo PromptResponse.yes).1, none, 0) := by
    apply hcached
    · rw [hyes]
      exact hglobal
    · rw [hyes]
      exact lookup_append_self st.secureServers connInfo.baseUrl true hfresh
  have hallow : ∀ resp : PromptResponse,
      secureConnectionCheck st2 connInfo resp = (st2, none, 0) := by
    intro resp
    unfold secureConnectionCheck
    rw [if_pos hst2]
  refine ⟨?_, ?_, ?_, ?_, ?_, ?_, ?_, ?_, ?_⟩
  · rw [hfirst PromptResponse.no]
    rfl
  · rw [hfirst PromptResponse.no]
    rfl
  · rw [hyes]
  · rw [hyes]
  · rw [hsecond]
  · rw [hsecond]
  · rw [hfirst PromptResponse.doNotShowAgain]
    rfl
  · rw [hallow resp2]
  · rw [hallow resp2]

/-- Empty security state for witnesses. -/
def emptySecurityState : SecurityState :=
  { userAllowsInsecureConnections := false, secureServers := [] }

/-- A tokenless (`token === 'null'`) plain-HTTP remote connection. -/
def insecureConn : JupyterConnection :=
  { baseUrl := "http://host:8888"
    token := "null"
    localLaunch := false
    hasAuthHeader := false }

/-- Witness for C5 at the concrete `http://host:8888` scenario. -/
theorem secureConnectionCheck_prompt_policy_witness :
    (secureConnectionCheck emptySecurityState insecureConn PromptResponse.no).2.2 = 1 ∧
    (secureConnectionCheck emptySecurityState insecureConn PromptResponse.no).2.1 =
      some "insecureSessionDenied" ∧
    (secureConnectionCheck emptySecurityState insecureConn PromptResponse.yes).2.2 = 1 ∧
    (secureConnectionCheck emptySecurityState insecureConn PromptResponse.yes).2.1 = none ∧
    (secureConnectionCheck
        (secureConnectionCheck emptySecurityState insecureConn PromptResponse.yes).1
        insecureConn PromptResponse.no).2.2 = 0 ∧
    (secureConnectionCheck
        (secureConnectionCheck emptySecurityState insecureConn PromptResponse.yes).1
        insecureConn PromptResponse.no).2.1 = none ∧
    (secureConnectionCheck emptySecurityState insecureConn
        PromptResponse.doNotShowAgain).1.userAllowsInsecureConnections = true ∧
    (secureConnectionCheck
        { userAllowsInsecureConnections := true, secureServers := [] }
        insecureConn PromptResponse.no).2.2 = 0 ∧
    (secureConnectionCheck
        { userAllowsInsecureConnections := true, secureServers := [] }
        insecureConn PromptResponse.no).2.1 = none :=
  secureConnectionCheck_prompt_policy emptySecurityState
    { userAllowsInsecureConnections := true, secureServers := [] }
    insecureConn PromptResponse.no rfl (by decide) rfl rfl rfl rfl

/-- C10: the trust check of `secureConnectionCheck` fires only when the
token is exactly the string `'null'`: a non-local plain-HTTP connection
whose token is the empty string passes the check with no prompt and no
error, in any security state; yet the password path of
`getServerConnectSettings` treats the empty string and `'null'`
identically as a missing token (`needsPasswordPrompt` is true for
both). -/
theorem emptyToken_skips_trust_check
    (st : SecurityState) (connInfo : JupyterConnection) (resp : PromptResponse)
    (htoken : connInfo.token = "")
    (hauth : connInfo.hasAuthHeader = false) :
    secureConnectionCheck st connInfo resp = (st, none, 0) ∧
    needsPasswordPrompt connInfo = true ∧
    needsPasswordPrompt { connInfo with token := "null" } = true := by
  refine ⟨?_, ?_, ?_⟩
  · unfold secureConnectionCheck
    cases hg : st.userAllowsInsecureConnections with
    | true => rw [if_pos rfl]
    | false =>
        have hcond : (connInfo.localLaunch || strStartsWith connInfo.baseUrl "https" ||
            connInfo.token != "null") = true := by
          rw [htoken]
          simp
        rw [if_neg (fun h => Bool.false_ne_true h), if_pos hcond]
  · unfold needsPasswordPrompt
    rw [htoken, hauth]
    rfl
  · unfold needsPasswordPrompt
    rw [hauth]
    rfl

/-- Witness for C10: the `http://host:8888` connection with an empty
token. -/
theorem emptyToken_skips_trust_check_witness :
    secureConnectionCheck emptySecurityState
        { baseUrl := "http://host:8888", token := ""
          localLaunch := false, hasAuthHeader := false }
        PromptResponse.no = (emptySecurityState, none, 0) ∧
    needsPasswordPrompt
        { baseUrl := "http://host:8888", token := ""
          localLaunch := false, hasAuthHeader := false } = true ∧
    needsPasswordPrompt
        { ({ baseUrl := "http://host:8888", token := ""
             localLaunch := false, hasAuthHeader := false } : JupyterConnection)
          with token := "null" } = true :=
  emptyToken_skips_trust_check emptySecurityState
    { baseUrl := "http://host:8888", token := ""
      localLaunch := false, hasAuthHeader := false }
    PromptResponse.no rfl rfl

end VSCodeJupyter

namespace VSCodeJupyter

/-! ## RemoteKernelFinder.listKernels -/

/-- The fields of `INotebookProviderConnection` read by `listKernels`. -/
structure ProviderConnection where
  typeName : String
  baseUrl : String
  deriving Repr, DecidableEq

/-- `s.kernel` of a running session model. -/
structure SessionKernelModel where
  id : String
  name : String
  deriving Repr, DecidableEq

/-- A running session model from `getRunningSessions` (the fields the
live-kernel mapping reads; `last_activity` / `connections` are copied
through uninterpreted and elided here). -/
structure SessionModel where
  kernel : Option SessionKernelModel
  deriving Repr, DecidableEq

/-- The outcomes of the awaited collaborator calls inside `listKernels`:
`jupyterSessionManagerFactory.create`, then
`getRunningKernels` / `getKernelSpecs` / `getRunningSessions`
(run under `Promise.all`; the sequential order below is the
determinization used when several reject). -/
structure DiscoveryOutcomes where
  createManager : Except String Unit
  runningKernels : Except String (List RunningKernel)
  kernelSpecs : Except String (List String)
  runningSessions : Except String (List SessionModel)

/-- Modelled from the spec: `getKernelId` (kernels/helpers.ts, not among
the sources) — the stable id "derived from spec + interpreter + server
URL"; any deterministic encoding of the pair serves here. -/
def getKernelId (specName baseUrl : String) : String :=
  specName ++ "." ++ baseUrl

/-- The kernel connection metadata variants `listKernels` produces,
reduced to the fields the claims observe (spec name / live kernel id /
base url; the interpreter enrichment and the spec/active-kernel joins
into `kernelModel` only add fields that no claim reads). -/
inductive KernelConnMetadata where
  | startUsingRemoteKernelSpec (specName : String) (id : String) (baseUrl : String)
  | connectToLiveRemoteKernel (kernelId : String) (kernelName : String) (baseUrl : String)
  deriving Repr, DecidableEq

/-- `RemoteKernelFinder.listKernels`: for a Jupyter connection, create a
session manager, fetch running kernels, kernel specs and running
sessions, map specs to `startUsingRemoteKernelSpec` entries and sessions
to `connectToLiveRemoteKernel` entries, filter live entries whose kernel
id is in the ignore list, and return live entries followed by spec
entries.  The body is a try/finally — there is no catch — so any
rejection propagates to the caller; the `finally` disposes the session
manager whenever one was created.  Returns the call's result and whether
the manager was disposed. -/
def listKernels (connInfo : Option ProviderConnection)
    (outcomes : DiscoveryOutcomes) (kernelIdsToHide : List String) :
    Except String (List KernelConnMetadata) × Bool :=
  match connInfo with
  | none => (.ok [], false)
  | some conn =>
      if conn.typeName != "jupyter" then (.ok [], false)
      else
        match outcomes.createManager with
        | .error e => (.error e, false)
        | .ok _ =>
            match outcomes.runningKernels, outcomes.kernelSpecs,
                outcomes.runningSessions with
            | .error e, _, _ => (.error e, true)
            | .ok _, .error e, _ => (.error e, true)
            | .ok _, .ok _, .error e => (.error e, true)
            | .ok _, .ok specs, .ok sessions =>
                let mappedSpecs := specs.map (fun s =>
                  KernelConnMetadata.startUsingRemoteKernelSpec s
                    (getKernelId s conn.baseUrl) conn.baseUrl)
                let mappedLive := sessions.map (fun s =>
                  KernelConnMetadata.connectToLiveRemoteKernel
                    ((s.kernel.map (fun k => k.id)).getD "")
                    ((s.kernel.map (fun k => k.name)).getD "")
                    conn.baseUrl)
                let filtered := mappedLive.filter (fun k =>
                  match k with
                  | .connectToLiveRemoteKernel kid _ _ =>
                      !(kernelIdsToHide.contains kid)
                  | _ => true)
                (.ok (filtered ++ mappedSpecs), true)

/-- The remote Jupyter connection used in the C8 scenario. -/
def sampleProviderConn : ProviderConnection :=
  { typeName := "jupyter", baseUrl := "http://host:8888" }

/-- The C8 scenario: manager creation succeeds but `getRunningKernels`
rejects while the other discovery calls are fine. -/
def failingDiscovery : DiscoveryOutcomes :=
  { createManager := .ok ()
    runningKernels := .error "ECONNREFUSED"
    kernelSpecs := .ok []
    runningSessions := .ok [] }

/-- Counterexample to C8 as stated: with a Jupyter connection whose
`getRunningKernels` rejects with `ECONNREFUSED`, `listKernels` does not
return an empty sequence — it rethrows the error to the caller. -/
theorem listKernels_failure_not_swallowed :
    (listKernels (some sampleProviderConn) failingDiscovery []).1 =
      Except.error "ECONNREFUSED" ∧
    (listKernels (some sampleProviderConn) failingDiscovery []).1 ≠
      Except.ok [] := by
  constructor
  · rfl
  · intro h
    rw [show (listKernels (some sampleProviderConn) failingDiscovery []).1 =
        Except.error "ECONNREFUSED" from rfl] at h
    exact Except.noConfusion h

/-- C8, amended: `listKernels` returns an empty sequence when the
connection info is absent or is not a Jupyter connection; but when an
underlying discovery step (session-manager creation, `getRunningKernels`,
`getKernelSpecs`, `getRunningSessions`) fails, the error propagates to
the caller rather than an empty sequence being returned. -/
theorem listKernels_discovery_failure_propagates
    (conn conn2 : ProviderConnection) (outcomes : DiscoveryOutcomes)
    (hide : List String) (e : String)
    (htype : conn.typeName = "jupyter")
    (htype2 : conn2.typeName ≠ "jupyter")
    (hfail : outcomes.createManager = .error e ∨
      (outcomes.createManager = .ok () ∧ outcomes.runningKernels = .error e) ∨
      (outcomes.createManager = .ok () ∧
        (∃ r, outcomes.runningKernels = .ok r) ∧
        outcomes.kernelSpecs = .error e) ∨
      (outcomes.createManager = .ok () ∧
        (∃ r, outcomes.runningKernels = .ok r) ∧
        (∃ s, outcomes.kernelSpecs = .ok s) ∧
        outcomes.runningSessions = .error e)) :
    (listKernels (some conn) outcomes hide).1 = Except.error e ∧
    (listKernels (some conn) outcomes hide).1 ≠ Except.ok [] ∧
    listKernels none outcomes hide = (Except.ok [], false) ∧
    listKernels (some conn2) outcomes hide = (Except.ok [], false) := by
  have htype' : (conn.typeName != "jupyter") = false := by
    rw [htype]
    rfl
  have htype2' : (conn2.typeName != "jupyter") = true := by
    simp [htype2]
  have hmain : (listKernels (some conn) outcomes hide).1 = Except.error e := by
    rcases hfail with hc | ⟨hc, hr⟩ | ⟨hc, ⟨r, hr⟩, hs⟩ | ⟨hc, ⟨r, hr⟩, ⟨s, hs⟩, hn⟩
    · simp only [listKernels, htype', Bool.false_eq_true, if_false, hc]
    · simp only [listKernels, htype', Bool.false_eq_true, if_false, hc, hr]
    · simp only [listKernels, htype', Bool.false_eq_true, if_false, hc, hr, hs]
    · simp only [listKernels, htype', Bool.false_eq_true, if_false, hc, hr, hs, hn]
  refine ⟨hmain, ?_, rfl, ?_⟩
  · intro h
    rw [hmain] at h
    exact Except.noConfusion h
  · simp only [listKernels, htype2', if_true]

/-- Witness for the amended C8: `ECONNREFUSED` from `getRunningKernels`
on the Jupyter connection, and the empty return on a non-Jupyter
connection. -/
theorem listKernels_discovery_failure_propagates_witness :
    (listKernels (some sampleProviderConn) failingDiscovery []).1 =
      Except.error "ECONNREFUSED" ∧
    (listKernels (some sampleProviderConn) failingDiscovery []).1 ≠
      Except.ok [] ∧
    listKernels none failingDiscovery [] = (Except.ok [], false) ∧
    listKernels
        (some { typeName := "raw", baseUrl := "http://host:8888" })
        failingDiscovery [] = (Except.ok [], false) :=
  listKernels_discovery_failure_propagates sampleProviderConn
    { typeName := "raw", baseUrl := "http://host:8888" } failingDiscovery
    [] "ECONNREFUSED" rfl (by decide) (Or.inr (Or.inl ⟨rfl, rfl⟩))

end VSCodeJupyter
